import Mathlib

/-!
Shallow embedding of the EVV_Backend repository (Django, Python) for spec
verification.  The embedding covers the parts of the code the claims are
about:

* `src/evv/models.py`: the `Client`, `Employee`, `Visit` and
  `ClientEmployeeXref` models, their `add_call`, `duration_hours`,
  `mark_submitted_to_evv`, `add_evv_error`, `validate_for_evv` and `save`
  operations;
* `src/evv/views.py`: the `SendClientsToEVV.post`, `SendVisitsToEVV.post`,
  `VisitDetailView._submit_visit_to_evv`, `XrefView.post` and
  `CaregiverOperationsView` (check-out and `_verify_location`) handlers;
* `src/employee/models.py` / `src/employee/views.py`: `TimeRecord` and
  `CheckInView.post`.

Modelling conventions:

* `DateTimeField` values are integers (seconds since the epoch, UTC);
  `DateField` values are integers (days).  `DecimalField`/float values are
  `Rat`; Python's `round(x, n)` (round-half-even to `n` decimal places) is
  `pyRound n`.
* Nullable fields (`null=True`) are `Option _`; Python string falsiness
  (`not s` true for `None` and `""`) is tested via `pystr` / `= ""`.
* `timezone.now()` is passed in as an explicit parameter; a handler that
  calls it several times in one request is given a single instant (the
  sub-second differences between consecutive calls never matter to the
  claims).
* Database state is a `List` of model instances; a queryset filter is a
  `List.filter`, an update loop is a `List.map`.
* The outbound HTTP call (`EVVService.upload_visits` and friends,
  `src/evv/services/evv_service.py`) returns a result envelope
  `{status_code, response, ...}`; it is modelled by `UploadResult`, with
  `response_id` standing for `result.get('response', {}).get('id')` and
  `raw` for the `str(result)` text interpolated into error messages.
  Whether the handler reaches the outbound call at all is recorded
  explicitly (`uploaded` flags).
-/

/-- Round-half-even of a rational to an integer (the rounding mode of
Python's builtin `round` and of `decimal.Decimal` quantisation). -/
def rhe (x : Rat) : Int :=
  let f := x.floor
  let r := x - (f : Rat)
  if r < 1/2 then f
  else if 1/2 < r then f + 1
  else if f % 2 = 0 then f else f + 1

/-- Python's `round(x, n)`: round-half-even to `n` decimal places. -/
def pyRound (n : Nat) (x : Rat) : Rat :=
  ((rhe (x * (10 ^ n : Nat))) : Rat) / ((10 ^ n : Nat) : Rat)

/-- The ASCII whitespace Python's `str.strip()` removes (it also strips
some Unicode spaces, which no field in this repository contains). -/
def pyWhitespace (c : Char) : Bool :=
  c = ' ' || c = Char.ofNat 9 || c = Char.ofNat 10 || c = Char.ofNat 13
    || c = Char.ofNat 11 || c = Char.ofNat 12

/-- Python's `s.strip()`: drop leading and trailing whitespace. -/
def pystrip (s : String) : String :=
  String.mk (((s.data.dropWhile pyWhitespace).reverse.dropWhile pyWhitespace).reverse)

/-- Python's `(val or "").strip()` (`safe_str`, views.py:44). -/
def pystr (o : Option String) : String := pystrip (o.getD "")

/-- A nullable string viewed as Python sees it: `None` and `""` are both
falsy, any other value is the string itself (no stripping). -/
def pystrRaw (o : Option String) : String := o.getD ""

/-- Character class of `NAME_RE = ^[A-Za-z \-']+$` (views.py:32). -/
def nameChar (c : Char) : Bool :=
  (('A' ≤ c && c ≤ 'Z') || ('a' ≤ c && c ≤ 'z') || c = ' ' || c = '-'
    || c = Char.ofNat 39)

/-- `NAME_RE.match s` succeeding as a full match: one or more characters,
all from the allowed class (the regex is anchored on both sides). -/
def nameMatch (s : String) : Bool :=
  !s.data.isEmpty && s.data.all nameChar

def isUpperAZ (c : Char) : Bool := 'A' ≤ c && c ≤ 'Z'

def isDigit09 (c : Char) : Bool := '0' ≤ c && c ≤ '9'

/-- `MEDICAID_RE = ^[A-Z][0-9]{8}$` (views.py:33): one uppercase letter
followed by exactly eight digits. -/
def medicaidMatch (s : String) : Bool :=
  match s.data with
  | c :: rest => isUpperAZ c && rest.length = 8 && rest.all isDigit09
  | [] => false

/-- `re.match(^A\d{8}$, s)` as used by `Visit.validate_for_evv`
(models.py:792): the literal letter `A` followed by exactly eight digits. -/
def medicaidMatchA (s : String) : Bool :=
  match s.data with
  | c :: rest => c = 'A' && rest.length = 8 && rest.all isDigit09
  | [] => false

/-- `re.match(^\d{9}$, s)` (models.py:797): exactly nine digits. -/
def ssnMatch (s : String) : Bool :=
  s.data.length = 9 && s.data.all isDigit09

/-- Python's `str.zfill`: left-pad with zeros to the given width. -/
def zfill (s : String) (w : Nat) : String :=
  if w ≤ s.length then s
  else String.mk (List.replicate (w - s.length) '0') ++ s

/-- `build_test_medicaid_id_from_pk` (views.py:35):
`f"A{str(pk).zfill(8)}"[:9]`. -/
def build_test_medicaid_id_from_pk (pk : Nat) : String :=
  (("A" ++ zfill (toString pk) 8).take 9)

/-- The `Client` model (`src/evv/models.py:157`), restricted to the fields
the claims touch.  `medicaid_id` is `CharField(blank=True, null=True)`;
the model has `location_latitude` / `location_longitude` fields and — a
fact that matters for `_verify_location` — defines no `latitude` or
`longitude` attribute. -/
structure Client where
  pk : Nat
  client_id : Option String
  first_name : String
  last_name : String
  dob : Option Int
  medicaid_id : Option String
  timezone : String
  assent_plan : String
  location_latitude : Option Rat
  location_longitude : Option Rat
  address_line1 : Option String
  deriving Repr, DecidableEq

/-- The `Employee` model (`src/evv/models.py:16`), restricted to the fields
the claims touch (`ssn` and `email` are non-null). -/
structure Employee where
  employee_id : String
  first_name : String
  last_name : String
  ssn : String
  email : String
  deriving Repr, DecidableEq

/-- One entry of `Visit.calls` as built by `Visit.add_call`
(models.py:706-718).  `call_external_id` is `f"CALL{int(now.timestamp())}"`
and `call_date_time` the same instant formatted; both are kept as the raw
instant. -/
structure Call where
  call_external_id : String
  call_date_time : Int
  call_assignment : String
  call_type : String
  procedure_code : String
  client_identifier_on_call : Option String
  mobile_login : String
  call_latitude : Option Rat
  call_longitude : Option Rat
  location : String
  visit_location_type : String
  deriving Repr, DecidableEq

/-- One entry of `Visit.visit_changes` as built by `Visit.add_visit_change`
(models.py:743-749).  The source stores `sequence_id` and
`change_date_time` as time-formatted strings of the same instant; the model
keeps the instant. -/
structure VisitChange where
  sequence_time : Int
  change_made_by : String
  change_date_time : Int
  reason_code : String
  change_reason_memo : String
  deriving Repr, DecidableEq

/-- One entry of `Visit.evv_errors` as built by `Visit.add_evv_error`
(models.py:768-771): a timestamp and a message. -/
structure EvvError where
  timestamp : Int
  message : String
  deriving Repr, DecidableEq

/-- The `Visit` model (`src/evv/models.py:425`), with its foreign keys to
`Client` and `Employee` inlined and the JSON list fields as lists. -/
structure Visit where
  id : Nat
  client : Client
  employee : Employee
  visit_other_id : String
  sequence_id : String
  visit_type : String
  schedule_start_time : Option Int
  schedule_end_time : Option Int
  actual_start_time : Option Int
  actual_end_time : Option Int
  start_latitude : Option Rat
  start_longitude : Option Rat
  end_latitude : Option Rat
  end_longitude : Option Rat
  location_verified : Bool
  location_distance_miles : Option Rat
  payer_id : String
  procedure_code : String
  visit_time_zone : String
  client_verified_times : Bool
  client_verified_tasks : Bool
  client_verified_service : Bool
  client_signature_available : Bool
  client_voice_recording : Bool
  bill_visit : Bool
  hours_to_bill : Rat
  hours_to_pay : Rat
  tasks_completed : List Nat
  tasks_refused : List Nat
  calls : List Call
  visit_changes : List VisitChange
  memo : String
  contingency_plan : String
  submitted_to_evv : Bool
  evv_submission_id : Option String
  evv_submission_date : Option Int
  evv_response : Option String
  evv_errors : List EvvError
  deriving Repr, DecidableEq

/-- `Visit.duration_hours` (models.py:665-671): when both actual times are
set, `round(total_seconds / 3600, 3)`; otherwise `0.0`. -/
def Visit.duration_hours (v : Visit) : Rat :=
  match v.actual_start_time, v.actual_end_time with
  | some s, some e => pyRound 3 (((e - s : Int) : Rat) / 3600)
  | _, _ => 0

/-- `Visit.is_scheduled` (models.py:674). -/
def Visit.is_scheduled (v : Visit) : Bool := v.visit_type = "scheduled"

/-- `Visit.is_completed` (models.py:684). -/
def Visit.is_completed (v : Visit) : Bool := v.visit_type = "completed"

/-- `Visit.add_call` (models.py:704-739).  Appends a call record, then:
on `'Time In'` stamps `actual_start_time`, the start coordinates and
`visit_type = 'in_progress'`; on `'Time Out'` stamps `actual_end_time`,
the end coordinates, `visit_type = 'completed'` and copies
`duration_hours` (computed after `actual_end_time` is set) into
`hours_to_bill` and `hours_to_pay`.  The call record's coordinates go
through `float(x) if x else None`, so a coordinate of `0` is stored as
null there (while the raw value is kept for `start_latitude` etc.). -/
def Visit.add_call (v : Visit) (call_type assignment : String)
    (latitude longitude : Option Rat) (now : Int) : Visit :=
  let truthyCoord : Option Rat → Option Rat := fun o =>
    match o with
    | some x => if x = 0 then none else some x
    | none => none
  let call : Call := {
    call_external_id := "CALL" ++ toString now
    call_date_time := now
    call_assignment := assignment
    call_type := call_type
    procedure_code := v.procedure_code
    client_identifier_on_call := v.client.medicaid_id
    mobile_login := v.employee.email
    call_latitude := truthyCoord latitude
    call_longitude := truthyCoord longitude
    location := pystr v.client.address_line1
    visit_location_type := "1" }
  let v1 := { v with calls := v.calls ++ [call] }
  if assignment = "Time In" then
    { v1 with actual_start_time := some now
              start_latitude := latitude
              start_longitude := longitude
              visit_type := "in_progress" }
  else if assignment = "Time Out" then
    let v2 := { v1 with actual_end_time := some now
                        end_latitude := latitude
                        end_longitude := longitude
                        visit_type := "completed" }
    { v2 with hours_to_bill := v2.duration_hours
              hours_to_pay := v2.duration_hours }
  else v1

/-- `Visit.add_visit_change` (models.py:741-755). -/
def Visit.add_visit_change (v : Visit) (change_made_by reason_code memo : String)
    (now : Int) : Visit :=
  { v with visit_changes := v.visit_changes ++
      [{ sequence_time := now, change_made_by := change_made_by,
         change_date_time := now, reason_code := reason_code,
         change_reason_memo := memo }] }

/-- `Visit.mark_submitted_to_evv` (models.py:757-764). -/
def Visit.mark_submitted_to_evv (v : Visit) (submission_id : Option String)
    (response_data : Option String) (now : Int) : Visit :=
  let v1 := { v with submitted_to_evv := true
                     evv_submission_id := submission_id
                     evv_submission_date := some now }
  match response_data with
  | some r => { v1 with evv_response := some r }
  | none => v1

/-- `Visit.add_evv_error` (models.py:766-777): append a timestamped error
record to `evv_errors`. -/
def Visit.add_evv_error (v : Visit) (error_message : String) (now : Int) : Visit :=
  { v with evv_errors := v.evv_errors ++
      [{ timestamp := now, message := error_message }] }

/-- `Visit.validate_for_evv` (models.py:779-815).  The source accumulates
error strings with successive conditional appends whose conditions are
independent of the accumulator, which is equivalent to the concatenation
of per-check segments, in source order. -/
def Visit.validate_for_evv (v : Visit) : List String :=
  let seg1 := if v.visit_other_id = "" then ["VisitOtherID is required"] else []
  let seg2 := if v.sequence_id = "" || v.sequence_id.length ≠ 14 then
      ["SequenceID must be 14 digits (YYYYMMDDHHMMSS)"] else []
  let seg3 :=
    if pystrRaw v.client.medicaid_id = "" then ["Client Medicaid ID is required"]
    else if !medicaidMatchA (pystrRaw v.client.medicaid_id) then
      ["Client Medicaid ID must be in format A12345678"]
    else []
  let seg4 :=
    if v.employee.ssn = "" then ["Employee SSN is required"]
    else if !ssnMatch v.employee.ssn then ["Employee SSN must be 9 digits"]
    else []
  let seg5 :=
    if v.is_scheduled then
      if v.schedule_start_time = none || v.schedule_end_time = none then
        ["Schedule times are required for scheduled visits"] else []
    else if v.is_completed then
      (if v.actual_start_time = none || v.actual_end_time = none then
        ["Actual visit times are required for completed visits"] else []) ++
      (if v.calls.length < 2 then
        ["At least 2 calls (in and out) are required for completed visits"] else []) ++
      (if !v.client_verified_times || !v.client_verified_service then
        ["Client verification is required for completed visits"] else [])
    else []
  seg1 ++ seg2 ++ seg3 ++ seg4 ++ seg5

/-- Result envelope of an outbound `EVVService` call
(`src/evv/services/evv_service.py:90-98`): the HTTP status code, the id
the handlers read back via `result.get('response', {}).get('id')` (or
`.get('transactionId')`), and the `str(result)` text that gets
interpolated into error messages. -/
structure UploadResult where
  status_code : Int
  response_id : Option String
  raw : String
  deriving Repr, DecidableEq

/-- Modelled from the spec: `EVVVisitSerializer` is imported by the views
from `.serializers` but its definition is not among the repository's
source files.  The spec's Payload Builder section says it "maps validated
local records into the aggregator's expected nested JSON shape"; the only
field the in-repo callers read back from a produced record is
`VisitOtherID` (`SendVisitsToEVV.post`, views.py:1209), so the model keeps
that field. -/
structure EVVVisitRecord where
  VisitOtherID : String
  deriving Repr, DecidableEq

def evvVisitSerializer (v : Visit) : EVVVisitRecord :=
  { VisitOtherID := v.visit_other_id }

/-- One entry of `invalid_records` in `SendVisitsToEVV.post`
(views.py:1180-1186). -/
structure InvalidVisitRecord where
  visit_id : Nat
  visit_other_id : String
  errors : List String
  deriving Repr, DecidableEq

/-- The queryset filter of `SendVisitsToEVV.post` (views.py:1146-1161):
visits of the requested type with `submitted_to_evv=False`, further
restricted to `visit_ids` when that list is non-empty (Python:
`if visit_ids:`). -/
def sendVisitsSelect (send_type : String) (visit_ids : List Nat) (v : Visit) : Bool :=
  (if send_type = "schedules_only" then v.visit_type = "scheduled"
   else v.visit_type = "completed")
  && !v.submitted_to_evv
  && (visit_ids.isEmpty || visit_ids.contains v.id)

/-- The validation loop of `SendVisitsToEVV.post` (views.py:1175-1191):
each selected visit either passes `validate_for_evv` and is serialized
into the payload, or contributes an `invalid_records` entry. -/
def buildVisitPayload : List Visit → List EVVVisitRecord × List InvalidVisitRecord
  | [] => ([], [])
  | v :: rest =>
    let r := buildVisitPayload rest
    if (v.validate_for_evv).isEmpty then (evvVisitSerializer v :: r.1, r.2)
    else (r.1, { visit_id := v.id, visit_other_id := v.visit_other_id,
                 errors := v.validate_for_evv } :: r.2)

/-- The outcome of one `SendVisitsToEVV.post` request: the payload and
diagnostics it computed, whether `evv.upload_visits` was reached, and the
database state afterwards. -/
structure SendVisitsResult where
  payload : List EVVVisitRecord
  invalid : List InvalidVisitRecord
  uploaded : Bool
  newVisits : List Visit
  deriving Repr, DecidableEq

/-- `SendVisitsToEVV.post` (views.py:1138-1226).  Select unsubmitted
visits of the requested type; return early (no outbound call) when the
selection or the validated payload is empty; otherwise call
`evv.upload_visits` and, when `result['status_code'] in [200, 202]`, mark
every selected visit whose `visit_other_id` appears in the payload as
submitted (`mark_submitted_to_evv(result['response'].get('id'), result)`). -/
def sendVisitsToEVV (visits : List Visit) (send_type : String)
    (visit_ids : List Nat) (result : UploadResult) (now : Int) : SendVisitsResult :=
  let qs := visits.filter (sendVisitsSelect send_type visit_ids)
  if qs.isEmpty then
    { payload := [], invalid := [], uploaded := false, newVisits := visits }
  else
    let pi := buildVisitPayload qs
    if pi.1.isEmpty then
      { payload := pi.1, invalid := pi.2, uploaded := false, newVisits := visits }
    else
      let newVisits :=
        if result.status_code = 200 || result.status_code = 202 then
          visits.map (fun v =>
            if sendVisitsSelect send_type visit_ids v
                && pi.1.any (fun r => r.VisitOtherID = v.visit_other_id) then
              v.mark_submitted_to_evv result.response_id (some result.raw) now
            else v)
        else visits
      { payload := pi.1, invalid := pi.2, uploaded := true,
        newVisits := newVisits }

/-- `VisitDetailView._submit_visit_to_evv` (views.py:516-539).  Serialize
the one visit, call `evv.upload_visits`; on `status_code == 200` mark it
submitted and return `True`, on anything else append
`f"EVV upload failed: {result}"` via `add_evv_error` and return `False`.
The whole body is wrapped in try/except, so the Python function never
raises to its caller; the model is a total function. -/
def submit_visit_to_evv (v : Visit) (result : UploadResult) (now : Int) :
    Visit × Bool :=
  if result.status_code = 200 then
    (v.mark_submitted_to_evv result.response_id (some result.raw) now, true)
  else
    (v.add_evv_error ("EVV upload failed: " ++ result.raw) now, false)

/-- `CaregiverOperationsView._verify_location` (views.py:1433-1456).
Missing coordinates (or a coordinate of `0`, falsy in Python) give
`False`.  With both coordinates present the body next evaluates
`client.latitude` — but the `Client` model defines `location_latitude` /
`location_longitude` and no `latitude` attribute, so this raises
`AttributeError`, the surrounding `except Exception` catches it and the
function returns `False`.  The distance computation on lines 1444-1452 is
therefore unreachable, and the function is constantly `False`. -/
def verify_location (_client : Client) (latitude longitude : Option Rat) : Bool :=
  let truthy : Option Rat → Bool := fun o =>
    match o with
    | some x => !(x = 0)
    | none => false
  if !truthy latitude || !truthy longitude then false
  else false

/-- The distance formula written on views.py:1446-1448
(`(|lat - client.latitude| + |lng - client.longitude|) * 69` miles) —
unreachable in the running code (see `verify_location`), reproduced here
to express how far apart two coordinate pairs are in the source's own
terms. -/
def rough_distance_miles (clat clng lat lng : Rat) : Rat :=
  (|lat - clat| + |lng - clng|) * 69

/-- The response body of a successful caregiver check-out
(views.py:1414-1422), together with the resulting visit state and whether
`evv.upload_visits` was reached. -/
structure CheckOutResult where
  visit : Visit
  uploaded : Bool
  message : String
  duration_hours : Rat
  location_verified : Bool
  check_out_time : Option Int
  submitted_to_evv : Bool
  deriving Repr, DecidableEq

/-- The `operation == 'check_out'` branch of `CaregiverOperationsView.post`
(views.py:1364-1422): verify location, `add_call('Time Out')`, copy the
client-verification flags and notes from the request, append a visit
change record, and — when `auto_submit_to_evv` (default `True`) — call
`evv.upload_visits` (without any `validate_for_evv` check) and mark the
visit submitted if the status is in `[200, 202]`.  The response always
carries `message = 'Successfully checked out'`; its `submitted_to_evv`
field echoes the `auto_submit` flag, not the upload outcome. -/
def caregiver_check_out (visit : Visit) (latitude longitude : Option Rat)
    (cv_times cv_tasks cv_service cv_signature : Bool) (visit_notes : String)
    (auto_submit : Bool) (result : UploadResult) (now : Int) : CheckOutResult :=
  let lv := verify_location visit.client latitude longitude
  let v1 := visit.add_call "Mobile" "Time Out" latitude longitude now
  let v2 := { v1 with client_verified_times := cv_times
                      client_verified_tasks := cv_tasks
                      client_verified_service := cv_service
                      client_signature_available := cv_signature
                      location_verified := lv
                      memo := visit_notes }
  let v3 := v2.add_visit_change "Caregiver Mobile App" "9"
      "Visit completed via mobile app with client verification" now
  let v4 :=
    if auto_submit && (result.status_code = 200 || result.status_code = 202) then
      v3.mark_submitted_to_evv result.response_id (some result.raw) now
    else v3
  { visit := v4
    uploaded := auto_submit
    message := "Successfully checked out"
    duration_hours := v4.duration_hours
    location_verified := lv
    check_out_time := v4.actual_end_time
    submitted_to_evv := auto_submit }

/-- The format-error string appended by `SendClientsToEVV.post`
(views.py:1038) when a non-empty `medicaid_id` fails `MEDICAID_RE`. -/
def medicaidFormatError : String :=
  "medicaid_id must be uppercase letter + 8 digits (e.g. A12345678)"

/-- The per-client validation of `SendClientsToEVV.post`
(views.py:1007-1070).  The source accumulates error strings with
successive conditional appends whose conditions do not read the
accumulator; this is the concatenation of per-check segments in source
order.  Notes kept faithful to the source:
* `first`/`last`/`tz`/`assent`/`medicaid` go through `safe_str` (strip,
  with `None → ""`); empty `tz`/`assent` fall back to the settings
  defaults `"America/Phoenix"` / `"Yes"`;
* the DOB branch only errors when `format_date_mmddyyyy` raises, which a
  well-typed `DateField` value never does, so it contributes no error;
* an empty `medicaid` produces no error: the fallback
  `build_test_medicaid_id_from_pk(c.pk)` is substituted instead;
* `client_custom_id` is the (possibly substituted) medicaid value, always
  9 characters, but the `> 20` check is kept as written. -/
def client_errors (c : Client) : List String :=
  let first := pystrip c.first_name
  let last := pystrip c.last_name
  let tz := if pystrip c.timezone = "" then "America/Phoenix" else pystrip c.timezone
  let assent := if pystrip c.assent_plan = "" then "Yes" else pystrip c.assent_plan
  let medicaid := pystr c.medicaid_id
  let medicaidFinal := if medicaid = "" then build_test_medicaid_id_from_pk c.pk
                       else medicaid
  let seg1 :=
    if first = "" then ["First name is required"]
    else if 30 < first.length || !nameMatch first then
      ["First name must be ≤30 chars and contain only letters, spaces, hyphen, apostrophe"]
    else []
  let seg2 :=
    if last = "" then ["Last name is required"]
    else if 30 < last.length || !nameMatch last then
      ["Last name must be ≤30 chars and contain only letters, spaces, hyphen, apostrophe"]
    else []
  let seg3 :=
    if medicaid ≠ "" && !medicaidMatch medicaid then [medicaidFormatError] else []
  let seg4 :=
    if medicaidFinal ≠ "" && 20 < medicaidFinal.length then
      ["ClientCustomID must be ≤20 characters"] else []
  let seg5 :=
    if tz = "" || 64 < tz.length then
      ["timezone is required and must be ≤64 characters"] else []
  let seg6 :=
    if assent ≠ "Yes" && assent ≠ "No" then
      ["assent_plan must be \x27Yes\x27 or \x27No\x27"] else []
  seg1 ++ seg2 ++ seg3 ++ seg4 ++ seg5 ++ seg6

/-- `ClientOtherID` / `ClientID` of the outbound record (views.py:1078):
`getattr(c, "client_id", None) or f"CL{str(c.pk).zfill(6)}"`. -/
def clientOtherID (c : Client) : String :=
  if pystrRaw c.client_id = "" then "CL" ++ zfill (toString c.pk) 6
  else pystrRaw c.client_id

/-- The outbound client record built by `SendClientsToEVV.post`
(views.py:1072-1103), restricted to its scalar fields.  The
`ProviderIdentification` block is fixed configuration, `ClientQualifier`
is the constant `"ClientCustomID"`, and the optional `Person` block is
present exactly when a DOB exists; `None`-valued keys are stripped before
emission, which `Option` fields model. -/
structure ClientRecord where
  ClientOtherID : String
  SequenceID : Nat
  ClientID : String
  ClientCustomID : String
  ClientQualifier : String
  ClientFirstName : String
  ClientLastName : String
  ClientMedicaidID : String
  ClientIdentifier : String
  ClientTimezone : String
  ProviderAssentContPlan : String
  MissingMedicaidID : String
  ClientActiveIndicator : String
  PersonDateOfBirth : Option Int
  deriving Repr, DecidableEq

/-- Build the record for one validated client (views.py:1072-1100).
`MissingMedicaidID` is `"False" if medicaid else "True"` where `medicaid`
has already been replaced by the fallback when empty — so it is always
`"False"` here. -/
def build_client_record (c : Client) (seq : Nat) : ClientRecord :=
  let medicaid := pystr c.medicaid_id
  let medicaidFinal := if medicaid = "" then build_test_medicaid_id_from_pk c.pk
                       else medicaid
  { ClientOtherID := clientOtherID c
    SequenceID := seq
    ClientID := clientOtherID c
    ClientCustomID := medicaidFinal
    ClientQualifier := "ClientCustomID"
    ClientFirstName := pystrip c.first_name
    ClientLastName := pystrip c.last_name
    ClientMedicaidID := medicaidFinal
    ClientIdentifier := medicaidFinal
    ClientTimezone := if pystrip c.timezone = "" then "America/Phoenix"
                      else pystrip c.timezone
    ProviderAssentContPlan := if pystrip c.assent_plan = "" then "Yes"
                              else pystrip c.assent_plan
    MissingMedicaidID := if medicaidFinal = "" then "True" else "False"
    ClientActiveIndicator := "Yes"
    PersonDateOfBirth := c.dob }

/-- One entry of `invalid_records` in `SendClientsToEVV.post`
(views.py:1065-1069). -/
structure InvalidClientRecord where
  client_id : Option String
  pk : Nat
  errors : List String
  deriving Repr, DecidableEq

/-- The main loop of `SendClientsToEVV.post` (views.py:1007-1106): walk
the clients in order with a sequence counter `seq` starting at 1 that
advances only past valid records; invalid clients are diverted to
`invalid_records` and skipped. -/
def processClients : List Client → Nat → List ClientRecord × List InvalidClientRecord
  | [], _ => ([], [])
  | c :: rest, seq =>
    if (client_errors c).isEmpty then
      let r := processClients rest (seq + 1)
      (build_client_record c seq :: r.1, r.2)
    else
      let r := processClients rest seq
      (r.1, { client_id := c.client_id, pk := c.pk, errors := client_errors c } :: r.2)

/-- `SendClientsToEVV.post` after the loop (views.py:1108-1125): with an
empty payload it returns 400 and never calls `evv.upload_clients`;
otherwise the payload is sent.  `uploaded` records whether the outbound
call happened. -/
structure SendClientsResult where
  payload : List ClientRecord
  invalid : List InvalidClientRecord
  uploaded : Bool
  deriving Repr, DecidableEq

def sendClientsToEVV (clients : List Client) : SendClientsResult :=
  let r := processClients clients 1
  { payload := r.1, invalid := r.2, uploaded := !r.1.isEmpty }

/-- The `ClientEmployeeXref` model (`src/evv/models.py:299`), restricted
to the fields its `save` and the Xref views touch. -/
structure Xref where
  pk : Nat
  client_fk : Nat
  employee_fk : Nat
  xref_other_id : String
  sequence_id : Int
  start_date : Int
  end_date : Option Int
  payer_id : String
  payer_program : String
  procedure_code : String
  modifier1 : Option String
  modifier2 : Option String
  modifier3 : Option String
  modifier4 : Option String
  live_in : String
  relationship : String
  submitted_to_evv : Bool
  deriving Repr, DecidableEq

/-- The `any([...])` of `ClientEmployeeXref.save` (models.py:404-409):
does some tracked field of the in-memory instance differ from the stored
row? -/
def xrefTrackedDiffer (self existing : Xref) : Bool :=
  self.start_date ≠ existing.start_date
  || self.end_date ≠ existing.end_date
  || self.live_in ≠ existing.live_in
  || self.relationship ≠ existing.relationship

/-- `ClientEmployeeXref.save` (models.py:396-412) for an existing record
(`self.pk` set): auto-generate `xref_other_id` when empty, and overwrite
`sequence_id` with `existing.sequence_id + 1` exactly when a tracked
field differs from the stored row `existing` (fetched by pk); otherwise
the in-memory `sequence_id` is persisted as-is. -/
def ClientEmployeeXref.save (self existing : Xref) (now : Int) : Xref :=
  let s :=
    if self.xref_other_id = "" then
      { self with xref_other_id := "XREF_" ++ toString self.client_fk ++ "_"
          ++ toString self.employee_fk ++ "_" ++ toString now }
    else self
  if xrefTrackedDiffer s existing then
    { s with sequence_id := existing.sequence_id + 1 }
  else s

/-- The request body of `XrefView.post` for an update (views.py:684-698),
with `none` meaning the key is absent so `data.get(key, default)` falls
back.  `start_date` was already validated present.  (A key present with an
explicit JSON `null` is not distinguished from an absent key; no claim
depends on that case.) -/
structure XrefPostData where
  start_date : Int
  end_date : Option Int
  payer_id : Option String
  payer_program : Option String
  procedure_code : Option String
  live_in : Option String
  relationship : Option String
  modifier1 : Option String
  modifier2 : Option String
  modifier3 : Option String
  modifier4 : Option String
  deriving Repr, DecidableEq

/-- The update branch of `XrefView.post` (views.py:684-698): copy the
request fields onto the existing row — `payer_program`, `live_in` and
`relationship` fall back to `'AHCCCS'` / `'No'` / `'Other'` rather than
to the stored values — then increment `sequence_id` unconditionally and
call `save`, which compares against the stored row `existing`. -/
def xrefViewPostUpdate (data : XrefPostData) (existing : Xref) (now : Int) : Xref :=
  let s := { existing with
    start_date := data.start_date
    end_date := match data.end_date with
                | some e => some e
                | none => existing.end_date
    payer_id := data.payer_id.getD existing.payer_id
    payer_program := data.payer_program.getD "AHCCCS"
    procedure_code := data.procedure_code.getD existing.procedure_code
    live_in := data.live_in.getD "No"
    relationship := data.relationship.getD "Other"
    modifier1 := match data.modifier1 with
                 | some m => some m
                 | none => existing.modifier1
    modifier2 := match data.modifier2 with
                 | some m => some m
                 | none => existing.modifier2
    modifier3 := match data.modifier3 with
                 | some m => some m
                 | none => existing.modifier3
    modifier4 := match data.modifier4 with
                 | some m => some m
                 | none => existing.modifier4 }
  let s := { s with sequence_id := s.sequence_id + 1 }
  ClientEmployeeXref.save s existing now

/-- The `TimeRecord` model (`src/employee/models.py:18`). -/
structure TimeRecord where
  user : Nat
  date : Int
  check_in : Int
  check_in_time : Option Int
  check_out : Option Int
  hours_worked : Option Rat
  deriving Repr, DecidableEq

/-- `TimeRecord.save` (employee/models.py:36-40): when `check_out` is set,
store `round(Decimal(total_seconds) / Decimal(3600), 2)` (half-even). -/
def TimeRecord.save (r : TimeRecord) : TimeRecord :=
  match r.check_out with
  | some co =>
    { r with hours_worked := some (pyRound 2 (((co - r.check_in : Int) : Rat) / 3600)) }
  | none => r

/-- `timezone.now().astimezone(ARIZONA_TZ).date()` (employee/views.py:37):
US/Arizona is UTC-7 with no daylight saving, so the local calendar day of
a UTC instant is the floor-division day of the instant shifted back seven
hours. -/
def arizonaDate (utcSeconds : Int) : Int :=
  (utcSeconds - 7 * 3600).fdiv 86400

/-- Outcome of one `CheckInView.post` request: the table afterwards, the
created record if any, and the error message if any. -/
structure CheckInOutcome where
  state : List TimeRecord
  created : Option TimeRecord
  error : Option String
  deriving Repr, DecidableEq

/-- `CheckInView.post` (employee/views.py:30-47), for an allowed IP
(`ALLOWED_IPS = ['*']` admits every caller): compute today's Arizona-local
date; if a `TimeRecord` for `(user, today)` exists, answer 400 with an
error and change nothing; otherwise create the record (its `full_clean`
re-checks the same uniqueness and, with no `check_out`, raises nothing)
and save it. -/
def checkInView (records : List TimeRecord) (user : Nat) (nowUtc : Int) :
    CheckInOutcome :=
  let today := arizonaDate nowUtc
  if records.any (fun r => r.user = user && r.date = today) then
    { state := records, created := none,
      error := some "You have already checked in today" }
  else
    let tr := TimeRecord.save
      { user := user, date := today, check_in := nowUtc,
        check_in_time := none, check_out := none, hours_worked := none }
    { state := records ++ [tr], created := some tr, error := none }

/-- A concrete `Client` row whose fields all pass the EVV validations. -/
def clientOK : Client :=
  { pk := 1
    client_id := some "CL1"
    first_name := "Jane"
    last_name := "Doe"
    dob := some 7000
    medicaid_id := some "A12345678"
    timezone := "America/Phoenix"
    assent_plan := "Yes"
    location_latitude := some 33
    location_longitude := some (-112)
    address_line1 := some "100 Main St" }

/-- A concrete `Employee` row whose fields all pass the EVV validations. -/
def employeeOK : Employee :=
  { employee_id := "E1"
    first_name := "Sam"
    last_name := "Lee"
    ssn := "123456789"
    email := "sam@example.com" }

/-- A freshly scheduled visit, with the model's field defaults
(models.py:425-611: `visit_type='scheduled'`, booleans false except
`bill_visit`, zero hours, empty JSON lists) and valid identifiers and
schedule times. -/
def visitBase : Visit :=
  { id := 1
    client := clientOK
    employee := employeeOK
    visit_other_id := "VISIT1"
    sequence_id := "20250101120000"
    visit_type := "scheduled"
    schedule_start_time := some 1000
    schedule_end_time := some 4600
    actual_start_time := none
    actual_end_time := none
    start_latitude := none
    start_longitude := none
    end_latitude := none
    end_longitude := none
    location_verified := false
    location_distance_miles := none
    payer_id := "AZDDD"
    procedure_code := "T1019"
    visit_time_zone := "US/Arizona"
    client_verified_times := false
    client_verified_tasks := false
    client_verified_service := false
    client_signature_available := false
    client_voice_recording := false
    bill_visit := true
    hours_to_bill := 0
    hours_to_pay := 0
    tasks_completed := []
    tasks_refused := []
    calls := []
    visit_changes := []
    memo := ""
    contingency_plan := ""
    submitted_to_evv := false
    evv_submission_id := none
    evv_submission_date := none
    evv_response := none
    evv_errors := [] }

/-- `visitBase` after a mobile check-in at instant 1000. -/
def visitInProgress : Visit :=
  visitBase.add_call "Mobile" "Time In" (some 33) (some (-112)) 1000

/-- An already-submitted completed visit (for the idempotence claim). -/
def visitSubmitted : Visit :=
  { visitBase with id := 9, visit_other_id := "VISIT9",
                   visit_type := "completed", submitted_to_evv := true }

/-- C8: on a scheduled visit, `add_call` with assignment `'Time In'` sets
`visit_type` to `'in_progress'` and stamps `actual_start_time` with the
current instant (in particular it becomes non-null). -/
theorem C8_time_in_transition (v : Visit) (_h : v.visit_type = "scheduled")
    (call_type : String) (lat lng : Option Rat) (now : Int) :
    (v.add_call call_type "Time In" lat lng now).visit_type = "in_progress" ∧
    (v.add_call call_type "Time In" lat lng now).actual_start_time = some now := by
  simp [Visit.add_call]

theorem C8_witness :
    visitBase.visit_type = "scheduled" ∧
    ((visitBase.add_call "Mobile" "Time In" (some 33) (some (-112)) 1000).visit_type
        = "in_progress" ∧
     (visitBase.add_call "Mobile" "Time In" (some 33) (some (-112)) 1000).actual_start_time
        = some 1000) :=
  ⟨rfl, C8_time_in_transition visitBase rfl "Mobile" (some 33) (some (-112)) 1000⟩

/-- C5: a `'Time Out'` call following a `'Time In'` call sets
`hours_to_bill` and `hours_to_pay` to the visit's `duration_hours`, which
is the actual-time difference converted to hours and rounded (half-even)
to three decimal places. -/
theorem C5_timeout_hours (v : Visit) (ct1 ct2 : String)
    (l1 g1 l2 g2 : Option Rat) (t1 t2 : Int) :
    ((v.add_call ct1 "Time In" l1 g1 t1).add_call ct2 "Time Out" l2 g2 t2).hours_to_bill
      = ((v.add_call ct1 "Time In" l1 g1 t1).add_call ct2 "Time Out" l2 g2 t2).hours_to_pay ∧
    ((v.add_call ct1 "Time In" l1 g1 t1).add_call ct2 "Time Out" l2 g2 t2).hours_to_pay
      = ((v.add_call ct1 "Time In" l1 g1 t1).add_call ct2 "Time Out" l2 g2 t2).duration_hours ∧
    ((v.add_call ct1 "Time In" l1 g1 t1).add_call ct2 "Time Out" l2 g2 t2).duration_hours
      = pyRound 3 (((t2 - t1 : Int) : Rat) / 3600) := by
  simp [Visit.add_call, Visit.duration_hours]

/-- C4 (counterexample): `add_call('Time Out')` on a visit that is still
`'scheduled'` moves it directly to `'completed'`, never passing through
`'in_progress'` — the code sets the state from the call assignment alone,
without looking at the current state. -/
theorem C4_counterexample :
    visitBase.visit_type = "scheduled" ∧
    (visitBase.add_call "Mobile" "Time Out" none none 500).visit_type = "completed" := by
  constructor
  · rfl
  · simp [Visit.add_call, visitBase]

/-- C4 (amended): `add_call` sets `visit_type` from the call assignment
alone — `'Time In'` always yields `'in_progress'`, `'Time Out'` always
yields `'completed'` (even directly from `'scheduled'`), and any other
assignment leaves the state unchanged.  Within `add_call`, `scheduled →
in_progress` therefore does happen only via `'Time In'`, but `completed`
is reachable from any state, including directly from `scheduled`. -/
theorem C4_add_call_transitions (v : Visit) (ct a : String)
    (lat lng : Option Rat) (now : Int) :
    (a = "Time In" → (v.add_call ct a lat lng now).visit_type = "in_progress") ∧
    (a = "Time Out" → (v.add_call ct a lat lng now).visit_type = "completed") ∧
    (a ≠ "Time In" → a ≠ "Time Out" →
      (v.add_call ct a lat lng now).visit_type = v.visit_type) := by
  refine ⟨fun h => ?_, fun h => ?_, fun h1 h2 => ?_⟩
  · subst h; simp [Visit.add_call]
  · subst h; simp [Visit.add_call]
  · simp [Visit.add_call, h1, h2]

theorem C4_witness :
    (visitBase.add_call "Mobile" "Time In" none none 10).visit_type = "in_progress" :=
  (C4_add_call_transitions visitBase "Mobile" "Time In" none none 10).1 rfl

/-- C2 (counterexample): a check-out reported from coordinates far from
the client's registered location — here (34, -111) against a client at
(33, -112), about 138 miles by the source's own distance formula, far
beyond 0.9 miles — is *not* rejected: the handler answers
`'Successfully checked out'` and the visit is completed.  The location
check only feeds the `location_verified` flag (which is `false`). -/
theorem C2_counterexample :
    (9 : Rat) / 10 < rough_distance_miles 33 (-112) 34 (-111) ∧
    (caregiver_check_out visitInProgress (some 34) (some (-111))
        true true true true "" true ⟨200, some "SUB1", "ok"⟩ 4600).message
      = "Successfully checked out" ∧
    (caregiver_check_out visitInProgress (some 34) (some (-111))
        true true true true "" true ⟨200, some "SUB1", "ok"⟩ 4600).visit.visit_type
      = "completed" ∧
    (caregiver_check_out visitInProgress (some 34) (some (-111))
        true true true true "" true ⟨200, some "SUB1", "ok"⟩ 4600).location_verified
      = false := by
  refine ⟨by norm_num [rough_distance_miles], ?_, ?_, ?_⟩ <;> decide

/-- C2 (amended): no check-out is ever rejected on location grounds.  The
handler always completes the visit and answers
`'Successfully checked out'`; the distance check only determines the
`location_verified` flag of the response and visit — and because
`_verify_location` reads `client.latitude`, an attribute the `Client`
model does not define, the caught `AttributeError` makes that flag
constantly `false`. -/
theorem C2_checkout_never_rejected (visit : Visit) (latitude longitude : Option Rat)
    (cvTimes cvTasks cvService cvSig : Bool) (notes : String) (auto : Bool)
    (r : UploadResult) (now : Int) :
    (caregiver_check_out visit latitude longitude cvTimes cvTasks cvService cvSig
        notes auto r now).message = "Successfully checked out" ∧
    (caregiver_check_out visit latitude longitude cvTimes cvTasks cvService cvSig
        notes auto r now).visit.visit_type = "completed" ∧
    (caregiver_check_out visit latitude longitude cvTimes cvTasks cvService cvSig
        notes auto r now).location_verified = false := by
  refine ⟨rfl, ?_, ?_⟩
  · simp only [caregiver_check_out, Visit.add_visit_change, Visit.add_call,
      Visit.mark_submitted_to_evv]
    split <;> simp
  · simp [caregiver_check_out, verify_location]

/-- C7 (counterexample): an upload result with `status_code = 201` — which
the claim places in the success set {200, 201, 202} — does *not* mark the
visit submitted in `VisitDetailView._submit_visit_to_evv`: the visit stays
unsubmitted and a failure record is appended to `evv_errors` instead. -/
theorem C7_counterexample :
    (submit_visit_to_evv visitBase ⟨201, some "SUB", "resp201"⟩ 99).1.submitted_to_evv
      = false ∧
    (submit_visit_to_evv visitBase ⟨201, some "SUB", "resp201"⟩ 99).1.evv_errors
      = [{ timestamp := 99, message := "EVV upload failed: resp201" }] ∧
    (submit_visit_to_evv visitBase ⟨201, some "SUB", "resp201"⟩ 99).2 = false := by
  refine ⟨?_, ?_, ?_⟩ <;> decide

/-- C7 (amended): `VisitDetailView._submit_visit_to_evv` treats only
`status_code == 200` as success — it then sets `submitted_to_evv`, the
aggregator id and the timestamp and returns `True`; for *any* other status
code (201 and 202 included) it appends a timestamped error record to
`evv_errors`, leaves the submission state alone and returns `False`.  The
Python body is wrapped in try/except, so neither outcome raises to the
caller.  (The batch path `SendVisitsToEVV.post` uses the success set
{200, 202} instead and appends no per-visit error on failure.) -/
theorem C7_submission_state_tracking (v : Visit) (r : UploadResult) (now : Int) :
    (r.status_code = 200 →
      (submit_visit_to_evv v r now).1.submitted_to_evv = true ∧
      (submit_visit_to_evv v r now).1.evv_submission_id = r.response_id ∧
      (submit_visit_to_evv v r now).1.evv_submission_date = some now ∧
      (submit_visit_to_evv v r now).2 = true) ∧
    (r.status_code ≠ 200 →
      (submit_visit_to_evv v r now).1.evv_errors
        = v.evv_errors ++ [{ timestamp := now,
                             message := "EVV upload failed: " ++ r.raw }] ∧
      (submit_visit_to_evv v r now).1.submitted_to_evv = v.submitted_to_evv ∧
      (submit_visit_to_evv v r now).2 = false) := by
  constructor
  · intro h
    simp [submit_visit_to_evv, h, Visit.mark_submitted_to_evv]
  · intro h
    simp [submit_visit_to_evv, h, Visit.add_evv_error]

theorem C7_witness :
    (submit_visit_to_evv visitBase ⟨200, some "S9", "ok"⟩ 7).1.submitted_to_evv = true :=
  ((C7_submission_state_tracking visitBase ⟨200, some "S9", "ok"⟩ 7).1 rfl).1

/-- A completed visit with fewer than two calls always collects the
two-calls error in `validate_for_evv`. -/
theorem validate_calls_error_mem (v : Visit) (hc : v.visit_type = "completed")
    (hlt : v.calls.length < 2) :
    "At least 2 calls (in and out) are required for completed visits"
      ∈ v.validate_for_evv := by
  simp only [Visit.validate_for_evv, Visit.is_scheduled, Visit.is_completed, hc,
    List.mem_append]
  simp [hlt]

/-- Provenance of the visit payload: every record the validation loop
emits comes from a visit of the selection that passed `validate_for_evv`. -/
theorem buildVisitPayload_mem (qs : List Visit) (r : EVVVisitRecord)
    (hr : r ∈ (buildVisitPayload qs).1) :
    ∃ w ∈ qs, w.validate_for_evv = [] ∧ r.VisitOtherID = w.visit_other_id := by
  induction qs with
  | nil => simp [buildVisitPayload] at hr
  | cons v rest ih =>
    simp only [buildVisitPayload] at hr
    by_cases h : (v.validate_for_evv).isEmpty
    · rw [if_pos h] at hr
      rcases List.mem_cons.mp hr with h1 | h2
      · exact ⟨v, List.mem_cons_self v rest,
          List.isEmpty_iff.mp h, by rw [h1]; rfl⟩
      · obtain ⟨w, hw, hv, he⟩ := ih h2
        exact ⟨w, List.mem_cons_of_mem v hw, hv, he⟩
    · rw [if_neg h] at hr
      obtain ⟨w, hw, hv, he⟩ := ih hr
      exact ⟨w, List.mem_cons_of_mem v hw, hv, he⟩

/-- The payload computed by one `SendVisitsToEVV.post` request is always
the validated payload of the selection. -/
theorem sendVisitsToEVV_payload (visits : List Visit) (send_type : String)
    (visit_ids : List Nat) (result : UploadResult) (now : Int) (r : EVVVisitRecord)
    (hr : r ∈ (sendVisitsToEVV visits send_type visit_ids result now).payload) :
    r ∈ (buildVisitPayload (visits.filter (sendVisitsSelect send_type visit_ids))).1 := by
  simp only [sendVisitsToEVV] at hr
  split at hr
  · simp at hr
  · split at hr
    · exact hr
    · exact hr

/-- C1 (counterexample): a valid *scheduled* visit with an empty calls
list — fewer than the claimed two — passes `validate_for_evv` with no
errors, and the batch sender (send_type `'schedules_only'`) puts it in the
outbound payload and reaches `evv.upload_visits` with it. -/
theorem C1_counterexample :
    visitBase.calls.length < 2 ∧
    visitBase.validate_for_evv = [] ∧
    (sendVisitsToEVV [visitBase] "schedules_only" [] ⟨202, some "T1", "ok"⟩ 0).uploaded
      = true ∧
    (sendVisitsToEVV [visitBase] "schedules_only" [] ⟨202, some "T1", "ok"⟩ 0).payload
      = [{ VisitOtherID := "VISIT1" }] := by
  refine ⟨?_, ?_, ?_, ?_⟩ <;> decide

/-- C1 (amended): the two-call requirement applies to *completed* visits
only: a completed visit with fewer than two calls always fails
`validate_for_evv`, and the batch sender `SendVisitsToEVV` never puts a
record with its `visit_other_id` into the outbound payload (ids are
unique, as the DB column enforces).  Scheduled visits validate and are
uploaded with zero calls, and the caregiver check-out path calls
`upload_visits` without consulting `validate_for_evv` at all — which is
what the original claim misses. -/
theorem C1_completed_needs_two_calls (v : Visit)
    (hc : v.visit_type = "completed") (hlt : v.calls.length < 2)
    (visits : List Visit) (send_type : String) (visit_ids : List Nat)
    (result : UploadResult) (now : Int)
    (huniq : ∀ w ∈ visits, w.visit_other_id = v.visit_other_id → w = v) :
    v.validate_for_evv ≠ [] ∧
    ∀ r ∈ (sendVisitsToEVV visits send_type visit_ids result now).payload,
      r.VisitOtherID ≠ v.visit_other_id := by
  have hmem := validate_calls_error_mem v hc hlt
  constructor
  · intro hnil
    rw [hnil] at hmem
    exact List.not_mem_nil _ hmem
  · intro r hr hvid
    have hpay := sendVisitsToEVV_payload visits send_type visit_ids result now r hr
    obtain ⟨w, hw, hval, hre⟩ := buildVisitPayload_mem _ r hpay
    have hwv : w ∈ visits := List.mem_of_mem_filter hw
    have hweq : w = v := huniq w hwv (by rw [← hre, hvid])
    have hvnil : v.validate_for_evv = [] := hweq ▸ hval
    rw [hvnil] at hmem
    exact List.not_mem_nil _ hmem

theorem C1_witness :
    (visitSubmitted.add_call "Mobile" "Time Out" none none 20).validate_for_evv ≠ [] := by
  have h := C1_completed_needs_two_calls
    (visitSubmitted.add_call "Mobile" "Time Out" none none 20)
    (by decide) (by decide) [] "completed_visits" [] ⟨200, none, "ok"⟩ 0
    (by intro w hw; exact absurd hw (List.not_mem_nil w))
  exact h.1

/-- C6: local-state idempotence of the batch send.  The selection filter
admits only visits with `submitted_to_evv = False`; `mark_submitted_to_evv`
always sets the flag to `True`; hence a visit already marked submitted is
(a) never selected, (b) left exactly in place by a subsequent batch send,
and (c) never represented in the outbound payload (its `visit_other_id`
being unique, as the DB column enforces). -/
theorem C6_resubmission_idempotent (visits : List Visit) (send_type : String)
    (visit_ids : List Nat) (result : UploadResult) (now : Int) (i : Nat) (v : Visit)
    (hv : visits[i]? = some v) (hsub : v.submitted_to_evv = true)
    (huniq : ∀ w ∈ visits, w.visit_other_id = v.visit_other_id → w = v) :
    (∀ w ∈ visits.filter (sendVisitsSelect send_type visit_ids),
      w.submitted_to_evv = false) ∧
    (∀ (x : Visit) (sid : Option String) (resp : Option String) (t : Int),
      (x.mark_submitted_to_evv sid resp t).submitted_to_evv = true) ∧
    (sendVisitsToEVV visits send_type visit_ids result now).newVisits[i]? = some v ∧
    (∀ r ∈ (sendVisitsToEVV visits send_type visit_ids result now).payload,
      r.VisitOtherID ≠ v.visit_other_id) := by
  have hsel : sendVisitsSelect send_type visit_ids v = false := by
    simp [sendVisitsSelect, hsub]
  refine ⟨?_, ?_, ?_, ?_⟩
  · intro w hw
    have := (List.mem_filter.mp hw).2
    simp only [sendVisitsSelect, Bool.and_eq_true, Bool.not_eq_true'] at this
    exact this.1.2
  · intro x sid resp t
    cases resp <;> simp [Visit.mark_submitted_to_evv]
  · simp only [sendVisitsToEVV]
    split
    · exact hv
    · split
      · exact hv
      · simp only
        split
        · rw [List.getElem?_map, hv]
          simp [hsel]
        · exact hv
  · intro r hr hvid
    have hpay := sendVisitsToEVV_payload visits send_type visit_ids result now r hr
    obtain ⟨w, hw, _, hre⟩ := buildVisitPayload_mem _ r hpay
    have hwsel := (List.mem_filter.mp hw).2
    have hweq : w = v := huniq w (List.mem_of_mem_filter hw) (by rw [← hre, hvid])
    rw [hweq, hsel] at hwsel
    exact Bool.false_ne_true hwsel

theorem C6_witness :
    (sendVisitsToEVV [visitSubmitted] "completed_visits" [] ⟨200, none, "ok"⟩ 5).newVisits[0]?
      = some visitSubmitted :=
  (C6_resubmission_idempotent [visitSubmitted] "completed_visits" [] ⟨200, none, "ok"⟩ 5
    0 visitSubmitted (by decide) (by decide) (by decide)).2.2.1

/-- A client whose non-empty `medicaid_id` fails `MEDICAID_RE` always
collects the format error in `client_errors`. -/
theorem client_errors_medicaid_mem (c : Client)
    (hne : pystr c.medicaid_id ≠ "")
    (hbad : medicaidMatch (pystr c.medicaid_id) = false) :
    medicaidFormatError ∈ client_errors c := by
  simp [client_errors, List.mem_append, hne, hbad]

/-- Provenance of the client payload: every emitted record comes from a
client of the batch that passed `client_errors` cleanly. -/
theorem processClients_payload_mem (cs : List Client) (s : Nat) (r : ClientRecord)
    (hr : r ∈ (processClients cs s).1) :
    ∃ c ∈ cs, client_errors c = [] ∧ r.ClientOtherID = clientOtherID c := by
  induction cs generalizing s with
  | nil => simp [processClients] at hr
  | cons c rest ih =>
    simp only [processClients] at hr
    by_cases h : (client_errors c).isEmpty
    · rw [if_pos h] at hr
      rcases List.mem_cons.mp hr with h1 | h2
      · exact ⟨c, List.mem_cons_self c rest, List.isEmpty_iff.mp h, by rw [h1]; rfl⟩
      · obtain ⟨c2, hc2, hv, he⟩ := ih (s + 1) h2
        exact ⟨c2, List.mem_cons_of_mem c hc2, hv, he⟩
    · rw [if_neg h] at hr
      obtain ⟨c2, hc2, hv, he⟩ := ih s hr
      exact ⟨c2, List.mem_cons_of_mem c hc2, hv, he⟩

/-- Every client that fails validation gets its own entry (pk and error
list) in `invalid_records`. -/
theorem processClients_invalid_mem (cs : List Client) (s : Nat) (c : Client)
    (hmem : c ∈ cs) (hne : client_errors c ≠ []) :
    ∃ e ∈ (processClients cs s).2, e.pk = c.pk ∧ e.errors = client_errors c := by
  induction cs generalizing s with
  | nil => simp at hmem
  | cons c0 rest ih =>
    simp only [processClients]
    rcases List.mem_cons.mp hmem with h1 | h2
    · subst h1
      have h : ¬(client_errors c).isEmpty = true := by
        simpa [List.isEmpty_iff] using hne
      rw [if_neg h]
      exact ⟨{ client_id := c.client_id, pk := c.pk, errors := client_errors c },
        List.mem_cons_self _ _, rfl, rfl⟩
    · by_cases h : (client_errors c0).isEmpty
      · rw [if_pos h]
        obtain ⟨e, he, hp, herr⟩ := ih (s + 1) h2
        exact ⟨e, he, hp, herr⟩
      · rw [if_neg h]
        obtain ⟨e, he, hp, herr⟩ := ih s h2
        exact ⟨e, List.mem_cons_of_mem _ he, hp, herr⟩

/-- A client whose `medicaid_id` is absent/empty (`Jane Doe`, pk 42, no
medicaid). -/
def clientNoMedicaid : Client :=
  { clientOK with pk := 42, client_id := some "CL42", medicaid_id := none }

/-- A client whose `medicaid_id` is non-empty but malformed. -/
def clientBadMedicaid : Client :=
  { clientOK with pk := 3, client_id := some "CL3", medicaid_id := some "12345678" }

/-- C3 (counterexample): a client with a *missing* `medicaid_id` — which
the claim says must be excluded with a format error — is instead given the
generated placeholder `build_test_medicaid_id_from_pk` (here `A00000042`),
included in the outbound payload, and reported in no `invalid_records`
entry; the batch reaches `evv.upload_clients`. -/
theorem C3_counterexample :
    pystr clientNoMedicaid.medicaid_id = "" ∧
    medicaidMatch (pystr clientNoMedicaid.medicaid_id) = false ∧
    (sendClientsToEVV [clientNoMedicaid]).invalid = [] ∧
    (sendClientsToEVV [clientNoMedicaid]).payload
      = [build_client_record clientNoMedicaid 1] ∧
    (build_client_record clientNoMedicaid 1).ClientMedicaidID = "A00000042" ∧
    (sendClientsToEVV [clientNoMedicaid]).uploaded = true := by
  refine ⟨?_, ?_, ?_, ?_, ?_, ?_⟩ <;> decide

/-- C3 (amended): a client whose `medicaid_id` is *non-empty* (after
stripping) and fails `^[A-Z]\d{8}$` is excluded from the outbound payload
of `SendClientsToEVV` and reported with the explicit format-error string
in `invalid_records` (client ids assumed unique, as the DB enforces).  A
client with a missing/empty `medicaid_id` is *not* rejected: the handler
substitutes the generated test id `A` + zero-padded pk and sends the
record. -/
theorem C3_bad_medicaid_excluded (clients : List Client) (c : Client)
    (hmem : c ∈ clients) (hne : pystr c.medicaid_id ≠ "")
    (hbad : medicaidMatch (pystr c.medicaid_id) = false)
    (huniq : ∀ c2 ∈ clients, clientOtherID c2 = clientOtherID c → c2 = c) :
    (∃ e ∈ (sendClientsToEVV clients).invalid,
       e.pk = c.pk ∧ medicaidFormatError ∈ e.errors) ∧
    (∀ r ∈ (sendClientsToEVV clients).payload,
       r.ClientOtherID ≠ clientOtherID c) := by
  have hmm := client_errors_medicaid_mem c hne hbad
  have hneq : client_errors c ≠ [] := by
    intro h
    rw [h] at hmm
    exact List.not_mem_nil _ hmm
  constructor
  · obtain ⟨e, he, hp, herr⟩ := processClients_invalid_mem clients 1 c hmem hneq
    exact ⟨e, by simpa [sendClientsToEVV] using he, hp, herr ▸ hmm⟩
  · intro r hr hcid
    have hr2 : r ∈ (processClients clients 1).1 := by
      simpa [sendClientsToEVV] using hr
    obtain ⟨c2, hc2, hv, he⟩ := processClients_payload_mem clients 1 r hr2
    have hc2c : c2 = c := huniq c2 hc2 (by rw [← he, hcid])
    rw [hc2c] at hv
    exact hneq hv

theorem C3_witness :
    ∃ e ∈ (sendClientsToEVV [clientBadMedicaid]).invalid,
      e.pk = clientBadMedicaid.pk ∧ medicaidFormatError ∈ e.errors :=
  (C3_bad_medicaid_excluded [clientBadMedicaid] clientBadMedicaid
    (by decide) (by decide) (by decide) (by decide)).1

/-- A concrete stored Xref row: live-in `No`, relationship `Other`,
sequence 5. -/
def xrefEx : Xref :=
  { pk := 7
    client_fk := 1
    employee_fk := 2
    xref_other_id := "XREF_1_2_100"
    sequence_id := 5
    start_date := 100
    end_date := none
    payer_id := "AZDDD"
    payer_program := "AHCCCS"
    procedure_code := "T1019"
    modifier1 := none
    modifier2 := none
    modifier3 := none
    modifier4 := none
    live_in := "No"
    relationship := "Other"
    submitted_to_evv := false }

/-- An update request that repeats the stored values: same `start_date`,
every other key absent (so `live_in` and `relationship` fall back to their
defaults `No` / `Other`, which equal the stored values). -/
def xrefNoChangeData : XrefPostData :=
  { start_date := 100
    end_date := none
    payer_id := none
    payer_program := none
    procedure_code := none
    live_in := none
    relationship := none
    modifier1 := none
    modifier2 := none
    modifier3 := none
    modifier4 := none }

/-- The in-memory instance `xrefEx` with one tracked field changed. -/
def xrefChanged : Xref := { xrefEx with start_date := 200 }

/-- C9 (counterexample): an `XrefView.post` update that changes *no*
tracked field still increments `sequence_id` — the view bumps the counter
unconditionally (views.py:697) before calling `save`, and `save` keeps the
bumped in-memory value because no tracked field differs.  The resulting
row has identical tracked fields but `sequence_id` 6 instead of 5. -/
theorem C9_counterexample :
    (xrefViewPostUpdate xrefNoChangeData xrefEx 200).start_date = xrefEx.start_date ∧
    (xrefViewPostUpdate xrefNoChangeData xrefEx 200).end_date = xrefEx.end_date ∧
    (xrefViewPostUpdate xrefNoChangeData xrefEx 200).live_in = xrefEx.live_in ∧
    (xrefViewPostUpdate xrefNoChangeData xrefEx 200).relationship = xrefEx.relationship ∧
    (xrefViewPostUpdate xrefNoChangeData xrefEx 200).sequence_id ≠ xrefEx.sequence_id ∧
    (xrefViewPostUpdate xrefNoChangeData xrefEx 200).sequence_id
      = xrefEx.sequence_id + 1 := by
  refine ⟨?_, ?_, ?_, ?_, ?_, ?_⟩ <;> decide

/-- C9 (amended): `ClientEmployeeXref.save` sets `sequence_id` to the
stored value plus one exactly when a tracked field (`start_date`,
`end_date`, `live_in`, `relationship`) differs from the stored row, and
otherwise persists the caller's in-memory `sequence_id` unchanged.  The
`XrefView.post` update path additionally increments the counter
unconditionally before saving, so *every* update through that view —
including one that changes no tracked field — stores exactly
`stored.sequence_id + 1` (on that path the counter never decreases, but a
no-change update does bump it, contrary to the original claim). -/
theorem C9_sequence_counter (self existing : Xref) (now : Int)
    (data : XrefPostData) :
    (xrefTrackedDiffer self existing = true →
      (ClientEmployeeXref.save self existing now).sequence_id
        = existing.sequence_id + 1) ∧
    (xrefTrackedDiffer self existing = false →
      (ClientEmployeeXref.save self existing now).sequence_id
        = self.sequence_id) ∧
    (xrefViewPostUpdate data existing now).sequence_id
      = existing.sequence_id + 1 := by
  refine ⟨?_, ?_, ?_⟩
  · intro h
    simp only [ClientEmployeeXref.save]
    by_cases h0 : self.xref_other_id = ""
    · rw [if_pos h0]
      split
      · rfl
      · rename_i hd
        exact absurd h hd
    · rw [if_neg h0]
      split
      · rfl
      · rename_i hd
        exact absurd h hd
  · intro h
    simp only [ClientEmployeeXref.save]
    by_cases h0 : self.xref_other_id = ""
    · rw [if_pos h0]
      split
      · rename_i hd
        exact absurd (h.symm.trans hd) Bool.false_ne_true
      · rfl
    · rw [if_neg h0]
      split
      · rename_i hd
        exact absurd (h.symm.trans hd) Bool.false_ne_true
      · rfl
  · simp only [xrefViewPostUpdate, ClientEmployeeXref.save]
    split
    · split
      · rfl
      · rfl
    · split
      · rfl
      · rfl

theorem C9_witness :
    (ClientEmployeeXref.save xrefChanged xrefEx 50).sequence_id
      = xrefEx.sequence_id + 1 :=
  (C9_sequence_counter xrefChanged xrefEx 50 xrefNoChangeData).1 (by decide)

/-- The uniqueness invariant of the `TimeRecord` table: at most one record
per `(user, date)` pair (the model's `unique_together` constraint). -/
def atMostOnePerUserDate (records : List TimeRecord) : Prop :=
  records.Pairwise (fun a b => ¬(a.user = b.user ∧ a.date = b.date))

/-- C10: a check-in request on an Arizona-local date for which the user
already has a `TimeRecord` is rejected with an error and creates no
record, leaving the table unchanged; and a check-in preserves the
at-most-one-record-per-user-per-date invariant. -/
theorem C10_checkin_uniqueness (records : List TimeRecord) (user : Nat)
    (nowUtc : Int) (hinv : atMostOnePerUserDate records) :
    atMostOnePerUserDate (checkInView records user nowUtc).state ∧
    ∀ r ∈ records, r.user = user → r.date = arizonaDate nowUtc →
      (checkInView records user nowUtc).state = records ∧
      (checkInView records user nowUtc).created = none ∧
      (checkInView records user nowUtc).error
        = some "You have already checked in today" := by
  by_cases h : records.any
      (fun r => r.user = user && r.date = arizonaDate nowUtc)
  · refine ⟨?_, ?_⟩
    · simpa [checkInView, h] using hinv
    · intro r _ _ _
      refine ⟨?_, ?_, ?_⟩ <;> simp [checkInView, h]
  · constructor
    · simp only [checkInView, h, Bool.false_eq_true, if_false]
      unfold atMostOnePerUserDate
      rw [List.pairwise_append]
      refine ⟨hinv, List.pairwise_singleton _ _, ?_⟩
      intro a ha b hb
      simp only [TimeRecord.save, List.mem_singleton] at hb
      subst hb
      simp only [List.any_eq_true, not_exists, not_and] at h
      intro hab
      have := h a ha
      simp only [Bool.and_eq_true, decide_eq_true_eq] at this
      exact this ⟨hab.1, hab.2⟩
    · intro r hr hu hd
      exfalso
      simp only [List.any_eq_true, not_exists, not_and] at h
      have := h r hr
      simp only [Bool.and_eq_true, decide_eq_true_eq] at this
      exact this ⟨hu, hd⟩

theorem C10_witness :
    atMostOnePerUserDate (checkInView [] 1 100000).state :=
  (C10_checkin_uniqueness [] 1 100000 List.Pairwise.nil).1
